import Mathlib

/-!
Verification of the execution-environment lifecycle controller and resource
budget planner of `be/src/runtime/exec_env_init.cpp` (Apache Doris backend).

The embedding is shallow: the straight-line C++ of `ExecEnv::_init`,
`ExecEnv::_init_mem_env` and `ExecEnv::_destroy` is translated into pure
Lean functions over an explicit environment state.  Collaborator calls that
return a status (pipeline-scheduler start, load-path-manager init,
temp-file-manager init, block-spill-manager init, load-channel-manager init)
are passed in as parameters, as are the live system facts (memory limit,
file-descriptor limit) and resolved memory specs, exactly mirroring the
data the C++ reads.  Machine integers (`int64_t`) are modelled as `Int`
with `Int.tdiv` for C++ truncated division.
-/

/-- Result type of fallible initialization steps.  Modelled from the spec:
`common/status.h` is not among the provided sources; per §7 a step either
succeeds or yields an error carrying a descriptive message, and
`RETURN_IF_ERROR` propagates the first failure. -/
inductive Status where
  | ok : Status
  | internalError : String → Status
deriving Repr, DecidableEq

/-- Predicate form of success, matching `Status::ok()`. -/
def Status.isOk : Status → Bool
  | Status.ok => true
  | Status.internalError _ => false

/-- Modelled from the spec: `BitUtil::IsPowerOf2` (util/bit_util.h) is not
among the provided sources; per §4.3 and §8 it accepts exactly the positive
integers that are an integer power of two (128 accepted, 96 rejected). -/
def isPowerOf2 (v : Int) : Bool :=
  decide (∃ k : Fin (v.toNat + 1), v = 2 ^ (k : Nat))

/-- Modelled from the spec: `BitUtil::RoundDown` (util/bit_util.h) is not
among the provided sources; per §4.3.5 it rounds a value down to the
nearest multiple of the granularity. -/
def roundDown (value factor : Int) : Int :=
  Int.fdiv value factor * factor

/-- One execution of the storage-page-cache halving loop of
`ExecEnv::_init_mem_env` (exec_env_init.cpp lines 190-192), with explicit
fuel because the C++ `while` loop is not total on all `int64_t` inputs:
`while (storage_cache_limit > mem_limit / 2) storage_cache_limit /= 2`.
`none` means the fuel ran out before the loop guard became false. -/
def halveFuel : Nat → Int → Int → Option Int
  | 0, _, _ => none
  | fuel + 1, v, l => if Int.tdiv l 2 < v then halveFuel fuel (Int.tdiv v 2) l else some v

/-- The halving loop, run on value `v` and memory limit `l`, reaches the
final value `r` (with some amount of fuel, i.e. in finitely many steps). -/
def HalveResult (v l r : Int) : Prop :=
  ∃ fuel, halveFuel fuel v l = some r

/-- The halving loop terminates on value `v` and memory limit `l`. -/
def HalveTerminates (v l : Int) : Prop :=
  ∃ fuel r, halveFuel fuel v l = some r

/-- The combined guard of the C++ loop `while (!is_percent && v > l/2)`:
a percentage-resolved spec skips the loop entirely (zero iterations);
an absolute spec runs the halving loop. -/
def clampStorage (fuel : Nat) (is_percent : Bool) (v l : Int) : Option Int :=
  if is_percent then some v else halveFuel fuel v l

/-- Insert-or-assign on an association list, the observable behaviour of
`std::map::operator[]` followed by assignment in
`_store_path_map[store_paths[i].path] = i` (exec_env_init.cpp line 87):
an existing key has its value replaced, a new key is appended. -/
def mapAssign : List (String × Nat) → String → Nat → List (String × Nat)
  | [], k, v => [(k, v)]
  | (k', v') :: rest, k, v =>
      if k' = k then (k, v) :: rest else (k', v') :: mapAssign rest k v

/-- Key lookup on the association-list model of `_store_path_map`. -/
def mapLookup : List (String × Nat) → String → Option Nat
  | [], _ => none
  | (k, v) :: rest, p => if k = p then some v else mapLookup rest p

/-- The path-to-index map built by the loop at exec_env_init.cpp lines 86-88:
`for (i = 0; i < store_paths.size(); i++) map[store_paths[i].path] = i`. -/
def buildStorePathMap (paths : List String) : List (String × Nat) :=
  paths.enum.foldl (fun m ip => mapAssign m ip.2 ip.1) []

/-- Index of the last occurrence of `p` in `paths`, if any. -/
def lastIdxOf (paths : List String) (p : String) : Option Nat :=
  paths.enum.foldl (fun acc ip => if ip.2 = p then some ip.1 else acc) none

/-- The owned subsystems named by the teardown discussion (§4.5): the ones
`ExecEnv::_destroy` releases, plus the new-load-stream manager which the
spec also names there. -/
inductive Subsystem where
  | internal_client_cache
  | function_client_cache
  | load_stream_mgr
  | load_channel_mgr
  | new_load_stream_mgr
  | broker_mgr
  | bfd_util
  | tmp_file_mgr
  | load_path_mgr
  | master_info
  | fragment_mgr
  | pipeline_task_scheduler
  | cgroups_mgr
  | thread_mgr
  | broker_client_cache
  | frontend_client_cache
  | backend_client_cache
  | result_mgr
  | result_queue_mgr
  | stream_load_executor
  | routine_load_task_executor
  | external_scan_context_mgr
  | heartbeat_flags
  | scanner_scheduler
deriving Repr, DecidableEq

/-- Observable actions taken by `ExecEnv::_destroy`, in program order. -/
inductive DestroyEvent where
  | deregisterMetrics : DestroyEvent
  | release : Subsystem → DestroyEvent
deriving Repr, DecidableEq

/-- The state of the process-wide `ExecEnv` object: the `_is_init` flag, the
store paths and their index map, one liveness flag per owned subsystem
pointer (`true` = currently constructed), the metrics-hook registration
flag, and the three process-global singletons created by `_init_mem_env`
(each recorded with the capacity argument it was constructed with). -/
structure ExecEnvState where
  is_init : Bool
  store_paths : List String
  store_path_map : List (String × Nat)
  external_scan_context_mgr : Bool
  vstream_mgr : Bool
  result_mgr : Bool
  result_queue_mgr : Bool
  backend_client_cache : Bool
  frontend_client_cache : Bool
  broker_client_cache : Bool
  thread_mgr : Bool
  send_batch_thread_pool : Bool
  download_cache_thread_pool : Bool
  download_cache_buf_map : Bool
  pipeline_task_scheduler : Bool
  scanner_scheduler : Bool
  cgroups_mgr : Bool
  fragment_mgr : Bool
  result_cache : Bool
  master_info : Bool
  load_path_mgr : Bool
  tmp_file_mgr : Bool
  bfd_util : Bool
  broker_mgr : Bool
  load_channel_mgr : Bool
  load_stream_mgr : Bool
  new_load_stream_mgr : Bool
  internal_client_cache : Bool
  function_client_cache : Bool
  stream_load_executor : Bool
  routine_load_task_executor : Bool
  small_file_mgr : Bool
  storage_policy_mgr : Bool
  block_spill_mgr : Bool
  heartbeat_flags : Bool
  orphan_mem_tracker : Bool
  metrics_registered : Bool
  page_cache : Option (Int × Int × Int)
  segment_loader : Option Int
  chunk_allocator : Option Int
deriving Repr, DecidableEq

/-- The freshly constructed environment, before any call to `init`. -/
def emptyState : ExecEnvState where
  is_init := false
  store_paths := []
  store_path_map := []
  external_scan_context_mgr := false
  vstream_mgr := false
  result_mgr := false
  result_queue_mgr := false
  backend_client_cache := false
  frontend_client_cache := false
  broker_client_cache := false
  thread_mgr := false
  send_batch_thread_pool := false
  download_cache_thread_pool := false
  download_cache_buf_map := false
  pipeline_task_scheduler := false
  scanner_scheduler := false
  cgroups_mgr := false
  fragment_mgr := false
  result_cache := false
  master_info := false
  load_path_mgr := false
  tmp_file_mgr := false
  bfd_util := false
  broker_mgr := false
  load_channel_mgr := false
  load_stream_mgr := false
  new_load_stream_mgr := false
  internal_client_cache := false
  function_client_cache := false
  stream_load_executor := false
  routine_load_task_executor := false
  small_file_mgr := false
  storage_policy_mgr := false
  block_spill_mgr := false
  heartbeat_flags := false
  orphan_mem_tracker := false
  metrics_registered := false
  page_cache := none
  segment_loader := none
  chunk_allocator := none

/-- Inputs of `ExecEnv::_init_mem_env` (exec_env_init.cpp lines 165-237):
configuration values, the system memory facts already folded into the
resolved memory specs (`ParseUtil::parse_mem_spec` output, a byte count
plus a was-percentage flag), the descriptor-limit query outcome
(`none` = `getrlimit` failed), and the statuses returned by the two
collaborator init calls the function checks. -/
structure MemEnvParams where
  min_buffer_size : Int
  storage_v : Int
  storage_is_percent : Bool
  mem_limit : Int
  index_percentage : Int
  num_shards : Int
  rlimit_nofile : Option Int
  min_file_descriptor_number : Int
  tmp_file_status : Status
  block_spill_status : Status
  min_chunk_reserved_bytes : Int
  chunk_v : Int
deriving Repr, DecidableEq

/-- The descriptor count used for the segment-cache capacity
(exec_env_init.cpp lines 200-208): the `getrlimit` soft limit when the
query succeeded, else the configured `min_file_descriptor_number`. -/
def fdNumber (p : MemEnvParams) : Int :=
  match p.rlimit_nofile with
  | some r => r
  | none => p.min_file_descriptor_number

/-- The three process-global singletons `_init_mem_env` may construct,
each recorded with its construction arguments (`none` = not constructed
before the function returned).  The page cache records
(capacity, index percentage, shard count). -/
structure MemEnvEffects where
  page_cache : Option (Int × Int × Int)
  segment_loader : Option Int
  chunk_allocator : Option Int
deriving Repr, DecidableEq

/-- Shallow embedding of `ExecEnv::_init_mem_env` (exec_env_init.cpp lines
165-237).  Returns the function's `Status` together with which global
singletons were constructed; `none` if the storage-cache halving loop ran
out of fuel (the C++ loop does not terminate on such inputs). -/
def initMemEnv (fuel : Nat) (p : MemEnvParams) : Option (Status × MemEnvEffects) :=
  if isPowerOf2 p.min_buffer_size then
    match clampStorage fuel p.storage_is_percent p.storage_v p.mem_limit with
    | none => none
    | some storage_cache_limit =>
      let segment_cache_capacity := Int.tdiv (fdNumber p) 3 * 2
      let eff1 : MemEnvEffects :=
        { page_cache := some (storage_cache_limit, p.index_percentage, p.num_shards),
          segment_loader := some segment_cache_capacity,
          chunk_allocator := none }
      if p.tmp_file_status = Status.ok then
        if p.block_spill_status = Status.ok then
          if isPowerOf2 p.min_chunk_reserved_bytes then
            let chunk_reserved_bytes_limit := roundDown p.chunk_v p.min_chunk_reserved_bytes
            some (Status.ok, { eff1 with chunk_allocator := some chunk_reserved_bytes_limit })
          else
            some (Status.internalError
                    ("Config min_chunk_reserved_bytes must be a power-of-two: " ++
                      toString p.min_chunk_reserved_bytes),
                  eff1)
        else some (p.block_spill_status, eff1)
      else some (p.tmp_file_status, eff1)
  else
    some (Status.internalError
            ("Config min_buffer_size must be a power-of-two: " ++
              toString p.min_buffer_size),
          { page_cache := none, segment_loader := none, chunk_allocator := none })

/-- Inputs of `ExecEnv::_init` beyond the store-path list: the statuses of
the collaborator init calls whose result the function inspects
(`init_pipeline_task_scheduler`, `_load_path_mgr->init`,
`_load_channel_mgr->init`), and the inputs of `_init_mem_env`. -/
structure InitParams where
  pipeline_status : Status
  load_path_status : Status
  load_channel_status : Status
  mem : MemEnvParams
deriving Repr, DecidableEq

/-- How a call to `ExecEnv::_init` ends: a returned status (`ok`/`err`,
with the environment state at that point), or process termination via
`exit(-1)` (exec_env_init.cpp line 138), which never returns. -/
inductive InitOutcome where
  | ok : ExecEnvState → InitOutcome
  | err : Status → ExecEnvState → InitOutcome
  | fatalExit : Int → ExecEnvState → InitOutcome
deriving Repr, DecidableEq

/-- Shallow embedding of `ExecEnv::_init` (exec_env_init.cpp lines 79-151).
Straight-line constructions are record updates; the three checked
collaborator statuses branch exactly where the C++ checks them.  Note that
line 144 calls `_init_mem_env()` WITHOUT `RETURN_IF_ERROR`: the returned
status is discarded, so only the constructed-singleton effects survive.
`none` if `_init_mem_env`'s halving loop ran out of fuel. -/
def initRun (fuel : Nat) (p : InitParams) (paths : List String) (s : ExecEnvState) :
    Option InitOutcome :=
  if s.is_init then some (InitOutcome.ok s)
  else
    let s1 := { s with
      store_paths := paths,
      store_path_map := buildStorePathMap paths,
      external_scan_context_mgr := true,
      vstream_mgr := true,
      result_mgr := true,
      result_queue_mgr := true,
      backend_client_cache := true,
      frontend_client_cache := true,
      broker_client_cache := true,
      thread_mgr := true,
      send_batch_thread_pool := true,
      download_cache_thread_pool := true,
      download_cache_buf_map := true,
      pipeline_task_scheduler := true }
    if p.pipeline_status = Status.ok then
      let s2 := { s1 with
        scanner_scheduler := true,
        cgroups_mgr := true,
        fragment_mgr := true,
        result_cache := true,
        master_info := true,
        load_path_mgr := true,
        tmp_file_mgr := true,
        bfd_util := true,
        broker_mgr := true,
        load_channel_mgr := true,
        load_stream_mgr := true,
        new_load_stream_mgr := true,
        internal_client_cache := true,
        function_client_cache := true,
        stream_load_executor := true,
        routine_load_task_executor := true,
        small_file_mgr := true,
        storage_policy_mgr := true,
        block_spill_mgr := true }
      if p.load_path_status = Status.ok then
        match initMemEnv fuel p.mem with
        | none => none
        | some (_, eff) =>
          let s3 := { s2 with
            orphan_mem_tracker := true,
            page_cache := eff.page_cache,
            segment_loader := eff.segment_loader,
            chunk_allocator := eff.chunk_allocator }
          if p.load_channel_status = Status.ok then
            some (InitOutcome.ok { s3 with
              heartbeat_flags := true,
              metrics_registered := true,
              is_init := true })
          else some (InitOutcome.err p.load_channel_status s3)
      else some (InitOutcome.fatalExit (-1) s2)
    else some (InitOutcome.err p.pipeline_status s1)

/-- Shallow embedding of `ExecEnv::_destroy` (exec_env_init.cpp lines
278-309): no-op unless `_is_init`; otherwise deregister the metrics hooks,
`SAFE_DELETE` the listed subsystems in program order, and clear `_is_init`.
The returned list is the sequence of observable actions. -/
def destroyRun (s : ExecEnvState) : ExecEnvState × List DestroyEvent :=
  if s.is_init then
    ({ s with
        metrics_registered := false,
        internal_client_cache := false,
        function_client_cache := false,
        load_stream_mgr := false,
        load_channel_mgr := false,
        broker_mgr := false,
        bfd_util := false,
        tmp_file_mgr := false,
        load_path_mgr := false,
        master_info := false,
        fragment_mgr := false,
        pipeline_task_scheduler := false,
        cgroups_mgr := false,
        thread_mgr := false,
        broker_client_cache := false,
        frontend_client_cache := false,
        backend_client_cache := false,
        result_mgr := false,
        result_queue_mgr := false,
        stream_load_executor := false,
        routine_load_task_executor := false,
        external_scan_context_mgr := false,
        heartbeat_flags := false,
        scanner_scheduler := false,
        is_init := false },
     [DestroyEvent.deregisterMetrics,
      DestroyEvent.release Subsystem.internal_client_cache,
      DestroyEvent.release Subsystem.function_client_cache,
      DestroyEvent.release Subsystem.load_stream_mgr,
      DestroyEvent.release Subsystem.load_channel_mgr,
      DestroyEvent.release Subsystem.broker_mgr,
      DestroyEvent.release Subsystem.bfd_util,
      DestroyEvent.release Subsystem.tmp_file_mgr,
      DestroyEvent.release Subsystem.load_path_mgr,
      DestroyEvent.release Subsystem.master_info,
      DestroyEvent.release Subsystem.fragment_mgr,
      DestroyEvent.release Subsystem.pipeline_task_scheduler,
      DestroyEvent.release Subsystem.cgroups_mgr,
      DestroyEvent.release Subsystem.thread_mgr,
      DestroyEvent.release Subsystem.broker_client_cache,
      DestroyEvent.release Subsystem.frontend_client_cache,
      DestroyEvent.release Subsystem.backend_client_cache,
      DestroyEvent.release Subsystem.result_mgr,
      DestroyEvent.release Subsystem.result_queue_mgr,
      DestroyEvent.release Subsystem.stream_load_executor,
      DestroyEvent.release Subsystem.routine_load_task_executor,
      DestroyEvent.release Subsystem.external_scan_context_mgr,
      DestroyEvent.release Subsystem.heartbeat_flags,
      DestroyEvent.release Subsystem.scanner_scheduler])
  else (s, [])

/-- The release order actually performed by `ExecEnv::_destroy`
(exec_env_init.cpp lines 284-306). -/
def codeDestroyOrder : List Subsystem :=
  [Subsystem.internal_client_cache,
   Subsystem.function_client_cache,
   Subsystem.load_stream_mgr,
   Subsystem.load_channel_mgr,
   Subsystem.broker_mgr,
   Subsystem.bfd_util,
   Subsystem.tmp_file_mgr,
   Subsystem.load_path_mgr,
   Subsystem.master_info,
   Subsystem.fragment_mgr,
   Subsystem.pipeline_task_scheduler,
   Subsystem.cgroups_mgr,
   Subsystem.thread_mgr,
   Subsystem.broker_client_cache,
   Subsystem.frontend_client_cache,
   Subsystem.backend_client_cache,
   Subsystem.result_mgr,
   Subsystem.result_queue_mgr,
   Subsystem.stream_load_executor,
   Subsystem.routine_load_task_executor,
   Subsystem.external_scan_context_mgr,
   Subsystem.heartbeat_flags,
   Subsystem.scanner_scheduler]

/-- The release subset asserted by the claim under test: both RPC client
caches, BOTH load-stream managers (legacy and new), then the remainder in
the claimed order.  It names the new-load-stream manager and omits the
load-channel manager. -/
def claimedDestroyOrder : List Subsystem :=
  [Subsystem.internal_client_cache,
   Subsystem.function_client_cache,
   Subsystem.load_stream_mgr,
   Subsystem.new_load_stream_mgr,
   Subsystem.broker_mgr,
   Subsystem.bfd_util,
   Subsystem.tmp_file_mgr,
   Subsystem.load_path_mgr,
   Subsystem.master_info,
   Subsystem.fragment_mgr,
   Subsystem.pipeline_task_scheduler,
   Subsystem.cgroups_mgr,
   Subsystem.thread_mgr,
   Subsystem.broker_client_cache,
   Subsystem.frontend_client_cache,
   Subsystem.backend_client_cache,
   Subsystem.result_mgr,
   Subsystem.result_queue_mgr,
   Subsystem.stream_load_executor,
   Subsystem.routine_load_task_executor,
   Subsystem.external_scan_context_mgr,
   Subsystem.heartbeat_flags,
   Subsystem.scanner_scheduler]

/-- A fully valid configuration/collaborator input, used to instantiate
universally quantified theorems at a concrete point. -/
def sampleMem : MemEnvParams where
  min_buffer_size := 64
  storage_v := 500
  storage_is_percent := true
  mem_limit := 1000
  index_percentage := 10
  num_shards := 16
  rlimit_nofile := some 3000
  min_file_descriptor_number := 60000
  tmp_file_status := Status.ok
  block_spill_status := Status.ok
  min_chunk_reserved_bytes := 64
  chunk_v := 130

/-- Valid collaborator statuses with the sample memory-env input. -/
def sampleParams : InitParams where
  pipeline_status := Status.ok
  load_path_status := Status.ok
  load_channel_status := Status.ok
  mem := sampleMem

/-- The sample input with one configuration error: `min_buffer_size = 96`
is not a power of two, so `_init_mem_env` fails its first validation. -/
def badBufParams : InitParams :=
  { sampleParams with mem := { sampleMem with min_buffer_size := 96 } }

/-- The sample memory-env input with an absolute (non-percentage)
storage-page-cache spec of 2500 bytes against a memory limit of 1000. -/
def absStorageMem : MemEnvParams :=
  { sampleMem with storage_v := 2500, storage_is_percent := false }

/-- Claim C6: on any environment state whose initialized flag is set, a
call to `init` returns success immediately and leaves the entire state
unchanged: no subsystem is constructed a second time, no pool or mapping
is modified (`ExecEnv::_init` lines 81-83 returns `Status::OK()` before
touching anything). -/
theorem init_noop_when_initialized (fuel : Nat) (p : InitParams) (paths : List String)
    (s : ExecEnvState) (h : s.is_init = true) :
    initRun fuel p paths s = some (InitOutcome.ok s) := by
  simp [initRun, h]

/-- Witness for `init_noop_when_initialized` at a concrete initialized
state and concrete parameters. -/
theorem init_noop_when_initialized_witness :
    initRun 1 sampleParams ["/data1"] { emptyState with is_init := true } =
      some (InitOutcome.ok { emptyState with is_init := true }) :=
  init_noop_when_initialized 1 sampleParams ["/data1"] { emptyState with is_init := true } rfl

/-- Claim C7: on any environment state whose initialized flag is clear
(before any `init`, or right after a `destroy`), `destroy` is a no-op that
leaves the state unchanged and performs no action; consequently running
`destroy` twice in a row ends in the same state as running it once, the
second run doing nothing (`ExecEnv::_destroy` lines 280-282, 308). -/
theorem destroy_noop_and_idempotent (s : ExecEnvState) :
    (s.is_init = false → destroyRun s = (s, [])) ∧
    destroyRun (destroyRun s).1 = ((destroyRun s).1, []) := by
  constructor
  · intro h
    simp [destroyRun, h]
  · by_cases h : s.is_init
    · simp [destroyRun, h]
    · simp [destroyRun, h]

/-- Witness for `destroy_noop_and_idempotent` at the fresh state. -/
theorem destroy_noop_and_idempotent_witness :
    destroyRun emptyState = (emptyState, []) :=
  (destroy_noop_and_idempotent emptyState).1 rfl

/-- Claim C5 (amended): on an initialized environment, `destroy` first
deregisters the metrics hooks and then releases exactly this subset of
owned subsystems, in this order: both RPC client caches (internal,
function), the load-stream manager, the LOAD-CHANNEL manager (not the
new-load-stream manager, which the destroy path never touches), broker
manager, parser-utility singleton, temp-file manager, load-path manager,
master-info, fragment manager, pipeline task scheduler, cgroup manager,
thread-resource manager, the three service client caches, result-buffer
manager, result-queue manager, stream-load executor, routine-load
executor, external-scan-context manager, heartbeat flags, scanner
scheduler — and no subsystem outside that subset (every other field of the
state is preserved, apart from the initialized flag which is cleared). -/
theorem destroy_releases_exact_subset (s : ExecEnvState) (h : s.is_init = true) :
    destroyRun s =
      ({ s with
          metrics_registered := false,
          internal_client_cache := false,
          function_client_cache := false,
          load_stream_mgr := false,
          load_channel_mgr := false,
          broker_mgr := false,
          bfd_util := false,
          tmp_file_mgr := false,
          load_path_mgr := false,
          master_info := false,
          fragment_mgr := false,
          pipeline_task_scheduler := false,
          cgroups_mgr := false,
          thread_mgr := false,
          broker_client_cache := false,
          frontend_client_cache := false,
          backend_client_cache := false,
          result_mgr := false,
          result_queue_mgr := false,
          stream_load_executor := false,
          routine_load_task_executor := false,
          external_scan_context_mgr := false,
          heartbeat_flags := false,
          scanner_scheduler := false,
          is_init := false },
       DestroyEvent.deregisterMetrics :: codeDestroyOrder.map DestroyEvent.release) := by
  simp [destroyRun, h, codeDestroyOrder]

/-- Witness for `destroy_releases_exact_subset` at a concrete initialized
state: a state carrying a live new-load-stream manager keeps it. -/
theorem destroy_releases_exact_subset_witness :
    destroyRun { emptyState with is_init := true, new_load_stream_mgr := true } =
      ({ emptyState with new_load_stream_mgr := true },
       DestroyEvent.deregisterMetrics :: codeDestroyOrder.map DestroyEvent.release) :=
  destroy_releases_exact_subset { emptyState with is_init := true, new_load_stream_mgr := true } rfl

/-- Counterexample to claim C5 as stated: the claimed release subset names
the new-load-stream manager ("both load-stream managers") and omits the
load-channel manager, but on a concrete initialized environment `destroy`
releases the load-channel manager and does NOT release the
new-load-stream manager (its liveness flag survives the call). -/
theorem destroy_claimed_subset_cex :
    Subsystem.load_channel_mgr ∉ claimedDestroyOrder ∧
    Subsystem.new_load_stream_mgr ∈ claimedDestroyOrder ∧
    DestroyEvent.release Subsystem.load_channel_mgr ∈
      (destroyRun { emptyState with is_init := true, new_load_stream_mgr := true }).2 ∧
    DestroyEvent.release Subsystem.new_load_stream_mgr ∉
      (destroyRun { emptyState with is_init := true, new_load_stream_mgr := true }).2 ∧
    (destroyRun { emptyState with is_init := true, new_load_stream_mgr := true }).1.new_load_stream_mgr = true := by
  refine ⟨by decide, by decide, by decide, by decide, by decide⟩

/-- Claim C1 (code bug, demonstrated): with `min_buffer_size = 96` (not a
power of two) and every collaborator succeeding, `_init_mem_env` itself
returns a descriptive configuration error and constructs none of the
global singletons — yet `_init` discards that status (line 144 lacks
`RETURN_IF_ERROR`), continues with the remaining startup steps, sets the
initialized flag, and returns success to its caller. -/
theorem init_swallows_mem_env_failure :
    (∃ msg, initMemEnv 1 badBufParams.mem =
       some (Status.internalError msg,
             { page_cache := none, segment_loader := none, chunk_allocator := none })) ∧
    (∃ s, initRun 1 badBufParams ["/data1"] emptyState = some (InitOutcome.ok s) ∧
       s.is_init = true ∧ s.page_cache = none ∧ s.chunk_allocator = none) := by
  refine ⟨⟨_, rfl⟩, ⟨_, rfl, rfl, rfl, rfl⟩⟩

/-- Insert-or-assign / lookup interaction: looking up `p` after assigning
value `v` to key `k` yields `v` when `p = k` and the old answer otherwise. -/
lemma mapLookup_mapAssign (m : List (String × Nat)) (k : String) (v : Nat) (p : String) :
    mapLookup (mapAssign m k v) p = if k = p then some v else mapLookup m p := by
  induction m with
  | nil => simp [mapAssign, mapLookup]
  | cons kv rest ih =>
    obtain ⟨k', v'⟩ := kv
    by_cases hk : k' = k
    · subst hk
      by_cases hp : k' = p <;> simp [mapAssign, mapLookup, hp]
    · by_cases hp : k' = p
      · subst hp
        have hkp : ¬ k = k' := fun h => hk h.symm
        simp [mapAssign, mapLookup, hk, hkp]
      · simp [mapAssign, mapLookup, hk, hp, ih]

/-- Folding the assignment loop over an indexed list updates lookups to
the last assignment for the key, starting from the prior answer. -/
lemma mapLookup_foldl_assign (l : List (Nat × String)) :
    ∀ (m : List (String × Nat)) (p : String),
      mapLookup (l.foldl (fun m ip => mapAssign m ip.2 ip.1) m) p =
        l.foldl (fun acc ip => if ip.2 = p then some ip.1 else acc) (mapLookup m p) := by
  induction l with
  | nil => intro m p; rfl
  | cons ip l ih =>
    intro m p
    obtain ⟨i, q⟩ := ip
    simp only [List.foldl_cons]
    rw [ih, mapLookup_mapAssign]

/-- Claim C4 (amended): for every store-path list, the resulting
path-to-index mapping assigns each distinct path the index of its LAST
occurrence in the list (a later duplicate overwrites the earlier entry,
because `map[path] = i` assigns on every iteration); paths not in the
list are absent.  With no duplicates this is indices `0..n-1` in order. -/
theorem store_path_map_last_occurrence (paths : List String) (p : String) :
    mapLookup (buildStorePathMap paths) p = lastIdxOf paths p := by
  unfold buildStorePathMap lastIdxOf
  rw [mapLookup_foldl_assign]
  rfl

/-- Counterexample to claim C4 as stated: with duplicate path "a" at
indices 0 and 1, the built map sends "a" to 1 (its last occurrence), not
to 0 (its first occurrence) as the claim asserts. -/
theorem store_path_map_first_occurrence_cex :
    mapLookup (buildStorePathMap ["a", "a"]) "a" = some 1 ∧
    mapLookup (buildStorePathMap ["a", "a"]) "a" ≠ some 0 := by
  refine ⟨by decide, by decide⟩

/-- Truncated division of a natural-number cast matches natural division. -/
lemma int_natCast_tdiv_two (n : Nat) : Int.tdiv (n : Int) 2 = ((n / 2 : Nat) : Int) := rfl

/-- Truncated division of a cast by a power of two, in natural numbers. -/
lemma int_natCast_tdiv_pow (n k : Nat) :
    Int.tdiv (n : Int) ((2 : Int) ^ k) = ((n / 2 ^ k : Nat) : Int) := by
  have h2 : ((2 : Int)) ^ k = ((2 ^ k : Nat) : Int) := by push_cast; ring
  rw [h2]
  rfl

/-- Halving once and then dividing by `2 ^ k` divides by `2 ^ (k + 1)`. -/
lemma nat_div2_pow (n k : Nat) : n / 2 / 2 ^ k = n / 2 ^ (k + 1) := by
  rw [Nat.div_div_eq_div_mul, pow_succ, Nat.mul_comm]

/-- Cast form of `nat_div2_pow`, on the halved value. -/
lemma int_cast_div2_pow (n k : Nat) :
    Int.tdiv ((n / 2 : Nat) : Int) ((2 : Int) ^ k) = Int.tdiv (n : Int) ((2 : Int) ^ (k + 1)) := by
  rw [int_natCast_tdiv_pow, int_natCast_tdiv_pow, nat_div2_pow]

/-- Core of the halving-loop analysis, for a non-negative starting value:
with a non-negative memory limit the loop terminates, its result is the
start divided by `2 ^ k`, that result fits under half the limit, and `k`
is least with that property (every earlier iterate was still too big). -/
lemma halve_total_ofNat (l : Int) (hl : 0 ≤ l) :
    ∀ n : Nat, ∃ k : Nat,
      halveFuel (k + 1) (n : Int) l = some (Int.tdiv (n : Int) ((2 : Int) ^ k)) ∧
      Int.tdiv (n : Int) ((2 : Int) ^ k) ≤ Int.tdiv l 2 ∧
      ∀ j : Nat, j < k → Int.tdiv l 2 < Int.tdiv (n : Int) ((2 : Int) ^ j) := by
  have hl2 : 0 ≤ Int.tdiv l 2 := Int.tdiv_nonneg hl (by omega)
  intro n
  induction n using Nat.strong_induction_on with
  | _ n ih =>
    by_cases hc : Int.tdiv l 2 < (n : Int)
    · have hn0 : 0 < n := by
        rcases Nat.eq_zero_or_pos n with h0 | h0
        · subst h0
          simp only [Nat.cast_zero] at hc
          omega
        · exact h0
      have hlt : n / 2 < n := Nat.div_lt_self hn0 (by omega)
      obtain ⟨k, hk1, hk2, hk3⟩ := ih (n / 2) hlt
      refine ⟨k + 1, ?_, ?_, ?_⟩
      · have hstep : halveFuel (k + 1 + 1) (n : Int) l = halveFuel (k + 1) (Int.tdiv (n : Int) 2) l := by
          simp [halveFuel, hc]
        rw [hstep, int_natCast_tdiv_two, hk1, int_cast_div2_pow]
      · rw [← int_cast_div2_pow]
        exact hk2
      · intro j hj
        cases j with
        | zero =>
          rw [pow_zero, Int.tdiv_one]
          exact hc
        | succ j =>
          have := hk3 j (by omega)
          rw [int_cast_div2_pow] at this
          exact this
    · refine ⟨0, ?_, ?_, ?_⟩
      · simp [halveFuel, hc, pow_zero, Int.tdiv_one]
      · rw [pow_zero, Int.tdiv_one]
        omega
      · intro j hj
        omega

/-- The halving-loop analysis for every starting value: a negative start
exits the loop at once (it is already at most half of a non-negative
limit), a non-negative start reduces to `halve_total_ofNat`. -/
lemma halve_total (v l : Int) (hl : 0 ≤ l) :
    ∃ k : Nat,
      halveFuel (k + 1) v l = some (Int.tdiv v ((2 : Int) ^ k)) ∧
      Int.tdiv v ((2 : Int) ^ k) ≤ Int.tdiv l 2 ∧
      ∀ j : Nat, j < k → Int.tdiv l 2 < Int.tdiv v ((2 : Int) ^ j) := by
  by_cases hv : 0 ≤ v
  · obtain ⟨n, rfl⟩ := Int.eq_ofNat_of_zero_le hv
    exact halve_total_ofNat l hl n
  · push_neg at hv
    have hl2 : 0 ≤ Int.tdiv l 2 := Int.tdiv_nonneg hl (by omega)
    have hc : ¬ Int.tdiv l 2 < v := by omega
    refine ⟨0, ?_, ?_, ?_⟩
    · simp [halveFuel, hc, pow_zero, Int.tdiv_one]
    · rw [pow_zero, Int.tdiv_one]
      omega
    · intro j hj
      omega

/-- Adding fuel never changes a halving run that already finished. -/
lemma halveFuel_mono (f : Nat) :
    ∀ (g : Nat) (v l r : Int), halveFuel f v l = some r → f ≤ g → halveFuel g v l = some r := by
  induction f with
  | zero =>
    intro g v l r h _
    simp [halveFuel] at h
  | succ f ih =>
    intro g v l r h hle
    cases g with
    | zero => omega
    | succ g =>
      simp only [halveFuel] at h ⊢
      by_cases hc : Int.tdiv l 2 < v
      · rw [if_pos hc] at h ⊢
        exact ih g _ _ _ h (by omega)
      · rw [if_neg hc] at h ⊢
        exact h

/-- The halving loop has at most one final value on given inputs. -/
lemma halveResult_unique {v l r1 r2 : Int}
    (h1 : HalveResult v l r1) (h2 : HalveResult v l r2) : r1 = r2 := by
  obtain ⟨f1, h1⟩ := h1
  obtain ⟨f2, h2⟩ := h2
  have g1 := halveFuel_mono f1 (max f1 f2) v l r1 h1 (le_max_left _ _)
  have g2 := halveFuel_mono f2 (max f1 f2) v l r2 h2 (le_max_right _ _)
  rw [g1] at g2
  exact Option.some_injective _ g2

/-- With memory limit `-2` and value `0` the loop guard `0 > -2/2 = -1`
holds forever: no amount of fuel finishes the loop. -/
lemma halveFuel_diverges_zero_negtwo : ∀ f : Nat, halveFuel f 0 (-2) = none := by
  intro f
  induction f with
  | zero => rfl
  | succ f ih =>
    have hc : Int.tdiv (-2) 2 < (0 : Int) := by decide
    simp only [halveFuel, if_pos hc]
    rw [show Int.tdiv (0 : Int) 2 = (0 : Int) from rfl]
    exact ih

/-- Claim C2 (amended: the statement requires a non-negative memory limit
— for limits at most -2 the loop need not terminate, see the
counterexample): for every absolute (non-percentage) byte count `v` and
every memory limit `l ≥ 0`, the halving loop finishes at `v` divided by
`2 ^ k` for the least `k` bringing it to at most `l / 2` (so the
storage-cache capacity never exceeds half the limit), the loop's result
is unique, and a percentage-based spec is never reduced. -/
theorem storage_cache_halving_clamp :
    (∀ (v l : Int), 0 ≤ l →
       ∃ k : Nat,
         HalveResult v l (Int.tdiv v ((2 : Int) ^ k)) ∧
         Int.tdiv v ((2 : Int) ^ k) ≤ Int.tdiv l 2 ∧
         ∀ j : Nat, j < k → Int.tdiv l 2 < Int.tdiv v ((2 : Int) ^ j)) ∧
    (∀ (v l r1 r2 : Int), HalveResult v l r1 → HalveResult v l r2 → r1 = r2) ∧
    (∀ (fuel : Nat) (v l : Int), clampStorage fuel true v l = some v) := by
  refine ⟨?_, ?_, ?_⟩
  · intro v l hl
    obtain ⟨k, h1, h2, h3⟩ := halve_total v l hl
    exact ⟨k, ⟨k + 1, h1⟩, h2, h3⟩
  · intro v l r1 r2 h1 h2
    exact halveResult_unique h1 h2
  · intro fuel v l
    rfl

/-- Witness for `storage_cache_halving_clamp` at value 2500, limit 1000. -/
theorem storage_cache_halving_clamp_witness :
    ∃ k : Nat,
      HalveResult 2500 1000 (Int.tdiv 2500 ((2 : Int) ^ k)) ∧
      Int.tdiv 2500 ((2 : Int) ^ k) ≤ Int.tdiv 1000 2 ∧
      ∀ j : Nat, j < k → Int.tdiv 1000 2 < Int.tdiv 2500 ((2 : Int) ^ j) :=
  storage_cache_halving_clamp.1 2500 1000 (by decide)

/-- Counterexample to claim C2 as stated ("every memory limit"): at the
absolute value 0 with memory limit -2 the loop never terminates, so no
capacity is ever produced and no power-of-two quotient of the value fits
under half the limit. -/
theorem storage_cache_halving_claim_cex :
    (¬ HalveTerminates 0 (-2)) ∧
    ¬ ∃ k : Nat, HalveResult 0 (-2) (Int.tdiv 0 ((2 : Int) ^ k)) ∧
        Int.tdiv 0 ((2 : Int) ^ k) ≤ Int.tdiv (-2) 2 := by
  constructor
  · rintro ⟨f, r, hf⟩
    rw [halveFuel_diverges_zero_negtwo] at hf
    exact Option.noConfusion hf
  · rintro ⟨k, ⟨f, hf⟩, -⟩
    rw [halveFuel_diverges_zero_negtwo] at hf
    exact Option.noConfusion hf

/-- Claim C3 (amended): with the storage spec resolved to the absolute
value 2500 and memory limit 1000 the halving loop runs three times —
2500 → 1250 → 625 → 312 (625 still exceeds 1000/2 = 500) — so it stops at
312, and the storage page cache is constructed with capacity 312. -/
theorem storage_halving_2500_yields_312 :
    clampStorage 4 false 2500 1000 = some 312 ∧
    HalveResult 2500 1000 312 ∧
    initMemEnv 4 absStorageMem =
      some (Status.ok,
        { page_cache := some (312, 10, 16),
          segment_loader := some 2000,
          chunk_allocator := some 128 }) := by
  refine ⟨by decide, ⟨4, by decide⟩, by decide⟩

/-- Counterexample to claim C3 as stated: the loop does not stop at 625 —
312 is the unique final value of the loop on value 2500 and limit 1000,
and 625 is not a final value (625 > 500 re-enters the loop). -/
theorem storage_halving_2500_not_625_cex :
    HalveResult 2500 1000 312 ∧ ¬ HalveResult 2500 1000 625 := by
  refine ⟨⟨4, by decide⟩, ?_⟩
  intro h
  have h312 : HalveResult 2500 1000 312 := ⟨4, by decide⟩
  have heq := halveResult_unique h h312
  exact absurd heq (by decide)

/-- Claim C10: with a non-negative memory limit the halving loop
terminates for every starting value (each iteration strictly shrinks a
positive value), while with memory limit -2 and starting value 0 the
guard holds forever — so non-negativity of the limit is a genuine
precondition for the loop to be total. -/
theorem halving_terminates_iff_nonneg_limit :
    (∀ (v l : Int), 0 ≤ l → HalveTerminates v l) ∧ ¬ HalveTerminates 0 (-2) := by
  constructor
  · intro v l hl
    obtain ⟨k, h1, -, -⟩ := halve_total v l hl
    exact ⟨k + 1, _, h1⟩
  · rintro ⟨f, r, hf⟩
    rw [halveFuel_diverges_zero_negtwo] at hf
    exact Option.noConfusion hf

/-- Witness for `halving_terminates_iff_nonneg_limit` at value 7, limit 0. -/
theorem halving_terminates_iff_nonneg_limit_witness :
    HalveTerminates 7 0 :=
  halving_terminates_iff_nonneg_limit.1 7 0 (by decide)

/-- Claim C8: when the load-path manager's secondary init fails (and
execution reaches it, i.e. the pipeline scheduler started), `_init` takes
the fatal path `exit(-1)` instead of returning the error; when the
load-path init succeeds no fatal exit can happen at all, and the other
collaborator failures `_init` inspects — pipeline-scheduler start and
load-channel-manager init — are returned as errors, never fatal. -/
theorem load_path_failure_is_fatal (fuel : Nat) (p : InitParams) (paths : List String)
    (s : ExecEnvState) (hs : s.is_init = false) :
    (p.pipeline_status = Status.ok → p.load_path_status ≠ Status.ok →
       ∃ s2, initRun fuel p paths s = some (InitOutcome.fatalExit (-1) s2)) ∧
    (p.load_path_status = Status.ok →
       ∀ c s2, initRun fuel p paths s ≠ some (InitOutcome.fatalExit c s2)) ∧
    (p.pipeline_status ≠ Status.ok →
       ∃ s1, initRun fuel p paths s = some (InitOutcome.err p.pipeline_status s1)) ∧
    (p.pipeline_status = Status.ok → p.load_path_status = Status.ok →
       p.load_channel_status ≠ Status.ok →
       ∀ r, initMemEnv fuel p.mem = some r →
         ∃ s3, initRun fuel p paths s = some (InitOutcome.err p.load_channel_status s3)) := by
  refine ⟨?_, ?_, ?_, ?_⟩
  · intro hpp hlp
    simp [initRun, hs, hpp, hlp]
  · intro hlp c s2
    by_cases hpp : p.pipeline_status = Status.ok
    · cases hm : initMemEnv fuel p.mem with
      | none => simp [initRun, hs, hpp, hlp, hm]
      | some r =>
        obtain ⟨st, eff⟩ := r
        by_cases hlc : p.load_channel_status = Status.ok
        · simp [initRun, hs, hpp, hlp, hm, hlc]
        · simp [initRun, hs, hpp, hlp, hm, hlc]
    · simp [initRun, hs, hpp]
  · intro hpp
    simp [initRun, hs, hpp]
  · intro hpp hlp hlc r hm
    obtain ⟨st, eff⟩ := r
    simp [initRun, hs, hpp, hlp, hm, hlc]

/-- Witness for `load_path_failure_is_fatal`: a concrete failing
load-path init on the fresh state takes the fatal exit. -/
theorem load_path_failure_is_fatal_witness :
    ∃ s2, initRun 1
        { sampleParams with load_path_status := Status.internalError "load path mgr init failed" }
        ["/data1"] emptyState = some (InitOutcome.fatalExit (-1) s2) :=
  (load_path_failure_is_fatal 1
    { sampleParams with load_path_status := Status.internalError "load path mgr init failed" }
    ["/data1"] emptyState rfl).1 rfl (by decide)

/-- Claim C9: past the earlier memory-env steps (power-of-two buffer size,
a finished storage-cache clamp, temp-file and block-spill inits OK), a
power-of-two chunk granularity makes `_init_mem_env` construct the chunk
allocator with the resolved reservation limit rounded DOWN to a multiple
of the granularity (the reservation always divides evenly; 130 with
granularity 64 gives 128), while a non-power-of-two granularity yields a
descriptive configuration error from the memory-environment
initialization and no chunk allocator. -/
theorem chunk_allocator_rounddown (fuel : Nat) (p : MemEnvParams) (cap : Int)
    (hbuf : isPowerOf2 p.min_buffer_size = true)
    (hclamp : clampStorage fuel p.storage_is_percent p.storage_v p.mem_limit = some cap)
    (htmp : p.tmp_file_status = Status.ok)
    (hspill : p.block_spill_status = Status.ok) :
    (isPowerOf2 p.min_chunk_reserved_bytes = true →
       initMemEnv fuel p =
         some (Status.ok,
           { page_cache := some (cap, p.index_percentage, p.num_shards),
             segment_loader := some (Int.tdiv (fdNumber p) 3 * 2),
             chunk_allocator := some (roundDown p.chunk_v p.min_chunk_reserved_bytes) }) ∧
       p.min_chunk_reserved_bytes ∣ roundDown p.chunk_v p.min_chunk_reserved_bytes) ∧
    (isPowerOf2 p.min_chunk_reserved_bytes = false →
       initMemEnv fuel p =
         some (Status.internalError
                 ("Config min_chunk_reserved_bytes must be a power-of-two: " ++
                   toString p.min_chunk_reserved_bytes),
               { page_cache := some (cap, p.index_percentage, p.num_shards),
                 segment_loader := some (Int.tdiv (fdNumber p) 3 * 2),
                 chunk_allocator := none })) ∧
    roundDown 130 64 = 128 := by
  refine ⟨?_, ?_, by decide⟩
  · intro hchunk
    constructor
    · simp [initMemEnv, hbuf, hclamp, htmp, hspill, hchunk]
    · exact ⟨Int.fdiv p.chunk_v p.min_chunk_reserved_bytes, by rw [roundDown]; ring⟩
  · intro hchunk
    simp [initMemEnv, hbuf, hclamp, htmp, hspill, hchunk]

/-- Witness for `chunk_allocator_rounddown` at the concrete sample input
(granularity 64, resolved limit 130): the allocator gets 128. -/
theorem chunk_allocator_rounddown_witness :
    initMemEnv 1 sampleMem =
      some (Status.ok,
        { page_cache := some (500, 10, 16),
          segment_loader := some 2000,
          chunk_allocator := some 128 }) :=
  ((chunk_allocator_rounddown 1 sampleMem 500 (by decide) rfl rfl rfl).1 (by decide)).1
